import Mathlib

/-!
Shallow embedding of the EduPass credit-ledger contract
(src/contracts/edupass-token/src/lib.rs).

Accounts (Soroban `Address` values) are modelled as natural numbers: the
contract only compares them for equality and uses them as storage keys.
The host key-value store is modelled by the `Store` structure, with one
field per `DataKey` variant: `Admin`, `Credits(Address)`,
`Allocations(Address)`, `TotalIssued`.  Host authorization
(`require_auth`) is modelled by passing each call the list of identities
the invocation has proven control of.  A `panic!` in the contract aborts
the whole invocation and the host discards all writes, so each operation
is a function `Store → Except Err Store`; the committed state is
`applyOp`, which keeps the old store on error.
-/

namespace EduPass

abbrev Address := Nat

/-- The `Allocation` record of the contract: metadata of the most recent
issuance for a beneficiary. -/
structure Allocation where
  beneficiary : Address
  issuer : Address
  amount : Int
  purpose : String
  expires_at : Nat
deriving DecidableEq

/-- Abort causes of the contract: the four `panic!` sites of the source
plus host-level authorization failure and the arithmetic-overflow abort. -/
inductive Err where
  | AlreadyInitialized
  | Unauthorized
  | InvalidAmount
  | InsufficientBalance
  | Overflow
deriving DecidableEq

def i128Min : Int := -(2 ^ 127)

def i128Max : Int := 2 ^ 127 - 1

/-- Range of a signed 128-bit integer, the type of balances, amounts and
the total-issued counter in the source. -/
def inI128 (x : Int) : Prop := i128Min ≤ x ∧ x ≤ i128Max

instance (x : Int) : Decidable (inI128 x) := by
  unfold inI128; infer_instance

/-- Modelled from the spec: the source adds `i128` values with plain `+`
and the build profile that fixes Rust overflow behaviour is not part of
the source tree; the spec mandates checked-abort semantics ("fail the
whole operation rather than silently wrap"), so an addition whose exact
result leaves the `i128` range aborts the operation with `Overflow`. -/
def checkedAdd (a b : Int) : Option Int :=
  if inI128 (a + b) then some (a + b) else none

/-- The host store: one field per `DataKey` variant of the source. -/
structure Store where
  admin : Option Address
  credits : Address → Option Int
  allocations : Address → Option Allocation
  totalIssued : Option Int

/-- A fresh contract instance: no key is present. -/
def emptyStore : Store :=
  { admin := none, credits := fun _ => none, allocations := fun _ => none,
    totalIssued := none }

/-- Read of `Credits(a)` with the source's `.unwrap_or(0)` default. -/
def getCredits (s : Store) (a : Address) : Int := (s.credits a).getD 0

def setCredits (s : Store) (a : Address) (v : Int) : Store :=
  { s with credits := fun x => if x = a then some v else s.credits x }

def setAllocation (s : Store) (a : Address) (v : Allocation) : Store :=
  { s with allocations := fun x => if x = a then some v else s.allocations x }

/-- Read of `TotalIssued` with the source's `.unwrap_or(0)` default. -/
def getTotal (s : Store) : Int := s.totalIssued.getD 0

/-- Source `initialize`: fails if `Admin` is already present, otherwise
stores the admin and sets `TotalIssued` to 0. -/
def init (s : Store) (admin : Address) : Except Err Store :=
  if s.admin.isSome then .error .AlreadyInitialized
  else .ok { s with admin := some admin, totalIssued := some (0 : Int) }

/-- Source `issue_credits`: after `require_auth` and the positivity
check, writes `balance + amount`, then `TotalIssued + amount`, then the
`Allocation` record (overwriting any prior one), and returns the record.
The two additions use the checked-abort arithmetic `checkedAdd`; an
abort after the balance write is discarded whole by the host. -/
def issue_credits (s : Store) (authed : List Address) (issuer beneficiary : Address)
    (amount : Int) (purpose : String) (expires_at : Nat) :
    Except Err (Store × Allocation) :=
  if issuer ∉ authed then .error .Unauthorized
  else if amount ≤ 0 then .error .InvalidAmount
  else
    let current := getCredits s beneficiary
    match checkedAdd current amount with
    | none => .error .Overflow
    | some newBal =>
      let s1 := setCredits s beneficiary newBal
      let total := getTotal s1
      match checkedAdd total amount with
      | none => .error .Overflow
      | some newTotal =>
        let s2 := { s1 with totalIssued := some newTotal }
        let alloc : Allocation :=
          { beneficiary := beneficiary, issuer := issuer, amount := amount,
            purpose := purpose, expires_at := expires_at }
        .ok (setAllocation s2 beneficiary alloc, alloc)

/-- Source `transfer`: after `require_auth`, the positivity check and the
balance check, reads the recipient balance and then writes
`from_balance - amount` to the sender key and `to_balance + amount` to
the recipient key, in that order.  Note the recipient balance is read
before the sender's debit is written, exactly as in the source.  The
subtraction cannot leave the `i128` range (`0 < amount ≤ from_balance`);
the addition uses the checked-abort arithmetic. -/
def transfer (s : Store) (authed : List Address) (src dst : Address)
    (amount : Int) : Except Err Store :=
  if src ∉ authed then .error .Unauthorized
  else if amount ≤ 0 then .error .InvalidAmount
  else
    let from_balance := getCredits s src
    if from_balance < amount then .error .InsufficientBalance
    else
      let to_balance := getCredits s dst
      match checkedAdd to_balance amount with
      | none => .error .Overflow
      | some nt => .ok (setCredits (setCredits s src (from_balance - amount)) dst nt)

/-- Source `burn`: after `require_auth`, the positivity check and the
balance check, writes `balance - amount`.  The subtraction cannot leave
the `i128` range (`0 < amount ≤ balance`). -/
def burn (s : Store) (authed : List Address) (account : Address)
    (amount : Int) : Except Err Store :=
  if account ∉ authed then .error .Unauthorized
  else if amount ≤ 0 then .error .InvalidAmount
  else
    let bal := getCredits s account
    if bal < amount then .error .InsufficientBalance
    else .ok (setCredits s account (bal - amount))

/-- Source `balance`: public read, 0 when the key is absent. -/
def balance (s : Store) (account : Address) : Int := getCredits s account

/-- Source `get_allocation`: public read, `none` when the beneficiary was
never issued credits. -/
def get_allocation (s : Store) (beneficiary : Address) : Option Allocation :=
  s.allocations beneficiary

/-- Source `total_issued`: public read with default 0. -/
def total_issued (s : Store) : Int := getTotal s

/-- One invocation of a public mutating operation, together with the set
of identities the host authorization has verified for that invocation. -/
inductive Op where
  | init (admin : Address)
  | issue (authed : List Address) (issuer beneficiary : Address)
      (amount : Int) (purpose : String) (expires_at : Nat)
  | transfer (authed : List Address) (src dst : Address) (amount : Int)
  | burn (authed : List Address) (account : Address) (amount : Int)

def exec (s : Store) : Op → Except Err Store
  | .init a => init s a
  | .issue au i b m p e =>
      match issue_credits s au i b m p e with
      | .ok (s', _) => .ok s'
      | .error err => .error err
  | .transfer au f t m => transfer s au f t m
  | .burn au a m => burn s au a m

/-- The state the host commits: the new store on success, the untouched
old store on abort (the host discards all writes of a failed call). -/
def applyOp (s : Store) (op : Op) : Store :=
  match exec s op with
  | .ok s' => s'
  | .error _ => s

def run (s : Store) : List Op → Store
  | [] => s
  | op :: ops => run (applyOp s op) ops

/-- States reachable from a fresh contract instance by successful
operations. -/
inductive Reachable : Store → Prop where
  | empty : Reachable emptyStore
  | step {s s' : Store} {op : Op} : Reachable s → exec s op = .ok s' →
      Reachable s'

/-- Contribution of one operation to the issued sum: the amount of a
successful `issue_credits` call, 0 for anything else. -/
def issueAmount (s : Store) : Op → Int
  | .issue au i b m p e =>
      if (exec s (.issue au i b m p e)).toOption.isSome then m else 0
  | _ => 0

/-- Sum of the `amount` arguments of the successful `issue_credits` calls
of a sequence, evaluated along the committed states. -/
def issuedSum (s : Store) : List Op → Int
  | [] => 0
  | op :: ops => issueAmount s op + issuedSum (applyOp s op) ops

/-- Sum of the balances of a finite list of accounts. -/
def sumBalances (s : Store) (accts : List Address) : Int :=
  (accts.map (balance s)).sum

set_option maxRecDepth 8000

/-! Basic lemmas about the store operations. -/

theorem checkedAdd_eq_some {a b c : Int} (h : checkedAdd a b = some c) :
    c = a + b ∧ inI128 (a + b) := by
  unfold checkedAdd at h
  split at h
  · exact ⟨(Option.some.injEq _ _ ▸ h).symm, by assumption⟩
  · exact Option.noConfusion h

theorem checkedAdd_of_inI128 {a b : Int} (h : inI128 (a + b)) :
    checkedAdd a b = some (a + b) := by
  unfold checkedAdd
  exact if_pos h

theorem checkedAdd_of_not_inI128 {a b : Int} (h : ¬ inI128 (a + b)) :
    checkedAdd a b = none := by
  unfold checkedAdd
  exact if_neg h

theorem balance_setCredits (s : Store) (a : Address) (v : Int) (x : Address) :
    balance (setCredits s a v) x = if x = a then v else balance s x := by
  unfold balance getCredits setCredits
  by_cases h : x = a <;> simp [h]

theorem balance_setAllocation (s : Store) (a : Address) (v : Allocation)
    (x : Address) : balance (setAllocation s a v) x = balance s x := rfl

theorem get_allocation_setCredits (s : Store) (a : Address) (v : Int)
    (x : Address) : get_allocation (setCredits s a v) x = get_allocation s x := rfl

theorem total_issued_setCredits (s : Store) (a : Address) (v : Int) :
    total_issued (setCredits s a v) = total_issued s := rfl

theorem applyOp_of_error {s : Store} {op : Op} {e : Err}
    (h : exec s op = .error e) : applyOp s op = s := by
  unfold applyOp
  rw [h]

theorem applyOp_of_ok {s s' : Store} {op : Op}
    (h : exec s op = .ok s') : applyOp s op = s' := by
  unfold applyOp
  rw [h]

/-! Inversion lemmas: what a successful call tells us about its inputs
and the store it produced. -/

theorem init_ok {s : Store} {a : Address} {s' : Store}
    (h : init s a = .ok s') :
    s.admin = none ∧
      s' = { s with admin := some a, totalIssued := some (0 : Int) } := by
  unfold init at h
  split at h
  · exact Except.noConfusion h
  · next hn =>
    refine ⟨Option.not_isSome_iff_eq_none.mp hn, ?_⟩
    exact ((Except.ok.injEq _ _).mp h).symm

theorem burn_ok {s : Store} {au : List Address} {a : Address} {m : Int}
    {s' : Store} (h : burn s au a m = .ok s') :
    a ∈ au ∧ 0 < m ∧ m ≤ getCredits s a ∧
      s' = setCredits s a (getCredits s a - m) := by
  simp only [burn] at h
  split at h
  · exact Except.noConfusion h
  · split at h
    · exact Except.noConfusion h
    · split at h
      · exact Except.noConfusion h
      · next h1 h2 h3 =>
        refine ⟨not_not.mp h1, by omega, by omega, ?_⟩
        exact ((Except.ok.injEq _ _).mp h).symm

theorem transfer_ok {s : Store} {au : List Address} {f t : Address} {m : Int}
    {s' : Store} (h : transfer s au f t m = .ok s') :
    f ∈ au ∧ 0 < m ∧ m ≤ getCredits s f ∧ inI128 (getCredits s t + m) ∧
      s' = setCredits (setCredits s f (getCredits s f - m)) t
        (getCredits s t + m) := by
  simp only [transfer] at h
  split at h
  · exact Except.noConfusion h
  · split at h
    · exact Except.noConfusion h
    · split at h
      · exact Except.noConfusion h
      · split at h
        · exact Except.noConfusion h
        · next h1 h2 h3 d x hx =>
          obtain ⟨hxe, hxr⟩ := checkedAdd_eq_some hx
          subst hxe
          exact ⟨not_not.mp h1, by omega, by omega, hxr,
            ((Except.ok.injEq _ _).mp h).symm⟩

theorem issue_credits_ok {s : Store} {au : List Address} {i b : Address}
    {m : Int} {p : String} {e : Nat} {s' : Store} {al : Allocation}
    (h : issue_credits s au i b m p e = .ok (s', al)) :
    i ∈ au ∧ 0 < m ∧ inI128 (getCredits s b + m) ∧ inI128 (getTotal s + m) ∧
      al = { beneficiary := b, issuer := i, amount := m, purpose := p,
             expires_at := e } ∧
      s' = setAllocation
        { setCredits s b (getCredits s b + m) with
            totalIssued := some (getTotal s + m) } b al := by
  simp only [issue_credits] at h
  split at h
  · exact Except.noConfusion h
  · split at h
    · exact Except.noConfusion h
    · split at h
      · exact Except.noConfusion h
      · next h1 h2 d x hx =>
        obtain ⟨hxe, hxr⟩ := checkedAdd_eq_some hx
        subst hxe
        split at h
        · exact Except.noConfusion h
        · next d2 y hy =>
          have hgt : getTotal (setCredits s b (getCredits s b + m)) =
              getTotal s := rfl
          rw [hgt] at hy
          obtain ⟨hye, hyr⟩ := checkedAdd_eq_some hy
          subst hye
          obtain ⟨hs, hal⟩ := Prod.mk.injEq .. ▸ (Except.ok.injEq _ _).mp h
          exact ⟨not_not.mp h1, by omega, hxr, hyr, hal.symm,
            by rw [← hs, ← hal]⟩

/-! Claim theorems. -/

theorem balance_setTotal (s : Store) (v : Option Int) (x : Address) :
    balance { s with totalIssued := v } x = balance s x := rfl

/-- A successful `issue_credits` call through `exec`. -/
theorem exec_issue_ok {s : Store} {au : List Address} {i b : Address}
    {m : Int} {p : String} {e : Nat} {s' : Store}
    (h : exec s (.issue au i b m p e) = .ok s') :
    ∃ al, issue_credits s au i b m p e = .ok (s', al) := by
  simp only [exec] at h
  split at h
  · next s1 al heq =>
    exact ⟨al, by rw [heq, (Except.ok.injEq _ _).mp h]⟩
  · exact Except.noConfusion h

/-- C3: in every state reachable from the fresh store by successful
operations, every account balance is non-negative; failing operations
commit nothing, so no reachable state observes a negative balance. -/
theorem c3_reachable_balances_nonneg :
    ∀ (s : Store), Reachable s → ∀ (a : Address), 0 ≤ balance s a := by
  intro s hs
  induction hs with
  | empty =>
    intro a
    simp [balance, getCredits, emptyStore]
  | step hr hok ih =>
    rename_i s0 s' op
    intro a
    cases op with
    | init ad =>
      obtain ⟨h1, h2⟩ := init_ok hok
      subst h2
      exact ih a
    | issue au i b m p e =>
      obtain ⟨al, heq⟩ := exec_issue_ok hok
      obtain ⟨hau, hm, hr1, hr2, hal, hs⟩ := issue_credits_ok heq
      subst hs
      rw [balance_setAllocation, balance_setTotal, balance_setCredits]
      have hb := ih b
      have ha := ih a
      simp only [balance] at hb ha ⊢
      split <;> omega
    | transfer au f t m =>
      obtain ⟨hau, hm, hle, hr1, hs⟩ := transfer_ok hok
      subst hs
      rw [balance_setCredits, balance_setCredits]
      have hb := ih t
      have hf := ih f
      have ha := ih a
      simp only [balance] at hb hf ha ⊢
      split
      · omega
      · split <;> omega
    | burn au b m =>
      obtain ⟨hau, hm, hle, hs⟩ := burn_ok hok
      subst hs
      rw [balance_setCredits]
      have hb := ih b
      have ha := ih a
      simp only [balance] at hb ha ⊢
      split <;> omega

/-- Witness for C3: the state after a successful initialization is
reachable and account 0 has a non-negative balance there. -/
theorem c3_reachable_balances_nonneg_witness :
    0 ≤ balance { emptyStore with admin := some 7, totalIssued := some (0 : Int) } 0 :=
  c3_reachable_balances_nonneg
    { emptyStore with admin := some 7, totalIssued := some (0 : Int) }
    (@Reachable.step emptyStore
      { emptyStore with admin := some 7, totalIssued := some (0 : Int) }
      (Op.init 7) Reachable.empty rfl) 0


/-- C1: the claim says a successful self-transfer leaves the balance
unchanged.  In the source the recipient balance is read before the
sender's debit is written, so the second balance write overwrites the
first: on a balance of 1000, the authorized self-transfer of 500
succeeds and commits a balance of 1500, not 1000. -/
theorem c1_self_transfer_inflates_balance :
    balance (setCredits emptyStore 0 1000) 0 = 1000 ∧
    transfer (setCredits emptyStore 0 1000) [0] 0 0 500 =
      .ok (setCredits (setCredits (setCredits emptyStore 0 1000) 0 500) 0 1500) ∧
    balance (setCredits (setCredits (setCredits emptyStore 0 1000) 0 500) 0 1500) 0
      = 1500 :=
  ⟨rfl, rfl, rfl⟩

/-- C2: the claim says the sum of all account balances is invariant under
any sequence of successful transfers.  The one-element sequence holding
the successful self-transfer `transfer(0, 0, 500)` raises the sum of the
balances of the touched accounts (only account 0 ever holds credits,
account 1 stays at 0) from 1000 to 1500. -/
theorem c2_self_transfer_breaks_conservation :
    sumBalances (setCredits emptyStore 0 1000) [0, 1] = 1000 ∧
    (exec (setCredits emptyStore 0 1000) (.transfer [0] 0 0 500)).toOption.isSome
      = true ∧
    sumBalances (run (setCredits emptyStore 0 1000) [.transfer [0] 0 0 500])
      [0, 1] = 1500 :=
  ⟨rfl, rfl, rfl⟩

/-- No operation ever changes a stored admin: `initialize` fails when an
admin is present, and the other operations never write the admin key. -/
theorem admin_applyOp (s : Store) (op : Op) (h : s.admin.isSome = true) :
    (applyOp s op).admin = s.admin := by
  cases hex : exec s op with
  | error e => rw [applyOp_of_error hex]
  | ok s' =>
    rw [applyOp_of_ok hex]
    cases op with
    | init a =>
      simp only [exec, init, h, if_true] at hex
      exact Except.noConfusion hex
    | issue au i b m p e =>
      obtain ⟨al, heq⟩ := exec_issue_ok hex
      obtain ⟨_, _, _, _, _, hs⟩ := issue_credits_ok heq
      subst hs
      rfl
    | transfer au f t m =>
      obtain ⟨_, _, _, _, hs⟩ := transfer_ok hex
      subst hs
      rfl
    | burn au b m =>
      obtain ⟨_, _, _, hs⟩ := burn_ok hex
      subst hs
      rfl

/-- Effect of one committed operation on the total-issued counter: a
successful issuance adds its amount, everything else leaves it alone
(assuming an admin is stored, so re-initialization cannot reset it). -/
theorem total_applyOp (s : Store) (op : Op) (h : s.admin.isSome = true) :
    total_issued (applyOp s op) = total_issued s + issueAmount s op := by
  cases op with
  | init a =>
    have hex : exec s (.init a) = .error .AlreadyInitialized := by
      simp [exec, init, h]
    rw [applyOp_of_error hex]
    simp [issueAmount]
  | issue au i b m p e =>
    cases hex : exec s (.issue au i b m p e) with
    | error e' =>
      rw [applyOp_of_error hex]
      simp [issueAmount, hex, Except.toOption]
    | ok s' =>
      rw [applyOp_of_ok hex]
      obtain ⟨al, heq⟩ := exec_issue_ok hex
      obtain ⟨_, _, _, _, _, hs⟩ := issue_credits_ok heq
      subst hs
      simp [issueAmount, hex, Except.toOption]
      rfl
  | transfer au f t m =>
    cases hex : exec s (.transfer au f t m) with
    | error e' =>
      rw [applyOp_of_error hex]
      simp [issueAmount]
    | ok s' =>
      rw [applyOp_of_ok hex]
      obtain ⟨_, _, _, _, hs⟩ := transfer_ok hex
      subst hs
      simp [issueAmount]
      rfl
  | burn au b m =>
    cases hex : exec s (.burn au b m) with
    | error e' =>
      rw [applyOp_of_error hex]
      simp [issueAmount]
    | ok s' =>
      rw [applyOp_of_ok hex]
      obtain ⟨_, _, _, hs⟩ := burn_ok hex
      subst hs
      simp [issueAmount]
      rfl

theorem issueAmount_nonneg (s : Store) (op : Op) : 0 ≤ issueAmount s op := by
  cases op with
  | init a => simp [issueAmount]
  | transfer au f t m => simp [issueAmount]
  | burn au b m => simp [issueAmount]
  | issue au i b m p e =>
    cases hex : exec s (.issue au i b m p e) with
    | error e' => simp [issueAmount, hex, Except.toOption]
    | ok s' =>
      obtain ⟨al, heq⟩ := exec_issue_ok hex
      obtain ⟨_, hm, _⟩ := issue_credits_ok heq
      simp [issueAmount, hex, Except.toOption]
      omega

theorem total_run (ops : List Op) : ∀ (s : Store), s.admin.isSome = true →
    total_issued (run s ops) = total_issued s + issuedSum s ops := by
  induction ops with
  | nil =>
    intro s h
    simp [run, issuedSum]
  | cons op ops ih =>
    intro s h
    have h' : (applyOp s op).admin.isSome = true := by
      rw [admin_applyOp s op h]
      exact h
    rw [run, issuedSum, ih _ h', total_applyOp s op h]
    ring

theorem total_mono (s : Store) (op : Op) (h : s.admin.isSome = true) :
    total_issued s ≤ total_issued (applyOp s op) := by
  rw [total_applyOp s op h]
  have := issueAmount_nonneg s op
  omega

/-- C4: starting from a freshly initialized ledger, after any sequence of
operations the total-issued counter equals the sum of the amounts of the
successful `issue_credits` calls of the sequence; and on any store that
holds an admin the counter never decreases across any single operation
(transfers, burns and failed calls leave it unchanged). -/
theorem c4_total_issued_is_sum_of_issues :
    (∀ (a : Address) (ops : List Op),
       total_issued (run (applyOp emptyStore (.init a)) ops) =
         issuedSum (applyOp emptyStore (.init a)) ops) ∧
    (∀ (s : Store) (op : Op), s.admin.isSome = true →
       total_issued s ≤ total_issued (applyOp s op)) ∧
    (∀ (s : Store) (au : List Address) (f t : Address) (m : Int),
       total_issued (applyOp s (.transfer au f t m)) = total_issued s) ∧
    (∀ (s : Store) (au : List Address) (a : Address) (m : Int),
       total_issued (applyOp s (.burn au a m)) = total_issued s) := by
  refine ⟨?_, ?_, ?_, ?_⟩
  · intro a ops
    have h1 : (applyOp emptyStore (.init a)).admin.isSome = true := rfl
    have h2 : total_issued (applyOp emptyStore (.init a)) = 0 := rfl
    rw [total_run ops _ h1, h2]
    ring
  · intro s op h
    exact total_mono s op h
  · intro s au f t m
    cases hex : exec s (.transfer au f t m) with
    | error e => rw [applyOp_of_error hex]
    | ok s' =>
      rw [applyOp_of_ok hex]
      obtain ⟨_, _, _, _, hs⟩ := transfer_ok hex
      subst hs
      rfl
  · intro s au a m
    cases hex : exec s (.burn au a m) with
    | error e => rw [applyOp_of_error hex]
    | ok s' =>
      rw [applyOp_of_ok hex]
      obtain ⟨_, _, _, hs⟩ := burn_ok hex
      subst hs
      rfl

/-- Witness for C4: one issuance of 1000 after initialization makes the
counter equal the issued sum, and a burn on an initialized store does not
decrease the counter. -/
theorem c4_total_issued_is_sum_of_issues_witness :
    total_issued (run (applyOp emptyStore (.init 7))
        [Op.issue [1] 1 2 1000 "Tuition" 1735689600]) =
      issuedSum (applyOp emptyStore (.init 7))
        [Op.issue [1] 1 2 1000 "Tuition" 1735689600] ∧
    total_issued { emptyStore with admin := some 7, totalIssued := some (0 : Int) } ≤
      total_issued (applyOp
        { emptyStore with admin := some 7, totalIssued := some (0 : Int) }
        (.burn [2] 2 5)) :=
  ⟨c4_total_issued_is_sum_of_issues.1 7 [Op.issue [1] 1 2 1000 "Tuition" 1735689600],
   c4_total_issued_is_sum_of_issues.2.1
     { emptyStore with admin := some 7, totalIssued := some (0 : Int) }
     (.burn [2] 2 5) rfl⟩

/-- C6: whenever an operation fails, the committed store is exactly the
store before the call: every balance, every allocation, the admin value
and the total-issued counter are unchanged (the host discards all writes
of an aborted invocation). -/
theorem c6_failed_op_changes_nothing :
    ∀ (s : Store) (op : Op) (e : Err) (a b : Address),
      exec s op = .error e →
      balance (applyOp s op) a = balance s a ∧
      get_allocation (applyOp s op) b = get_allocation s b ∧
      (applyOp s op).admin = s.admin ∧
      total_issued (applyOp s op) = total_issued s := by
  intro s op e a b h
  rw [applyOp_of_error h]
  exact ⟨rfl, rfl, rfl, rfl⟩

/-- Witness for C6 at a concrete failing call: an unauthorized transfer
fails with `Unauthorized` and commits nothing. -/
theorem c6_failed_op_changes_nothing_witness :
    balance (applyOp emptyStore (.transfer [] 0 1 5)) 2 = balance emptyStore 2 ∧
    get_allocation (applyOp emptyStore (.transfer [] 0 1 5)) 3 =
      get_allocation emptyStore 3 ∧
    (applyOp emptyStore (.transfer [] 0 1 5)).admin = emptyStore.admin ∧
    total_issued (applyOp emptyStore (.transfer [] 0 1 5)) =
      total_issued emptyStore :=
  c6_failed_op_changes_nothing emptyStore (.transfer [] 0 1 5) .Unauthorized 2 3 rfl

/-- C7: `initialize` succeeds exactly when no admin is stored, in which
case it stores the given admin and sets the total-issued counter to 0;
when an admin is already stored it fails with `AlreadyInitialized` and
the committed store (admin and counter included) is unchanged. -/
theorem c7_initialize_exactly_once :
    (∀ (s : Store) (a : Address), s.admin = none →
      init s a = .ok { s with admin := some a, totalIssued := some (0 : Int) }) ∧
    (∀ (s : Store) (a b : Address), s.admin = some b →
      init s a = .error .AlreadyInitialized ∧ applyOp s (.init a) = s) := by
  constructor
  · intro s a h
    simp [init, h]
  · intro s a b h
    have he : init s a = .error .AlreadyInitialized := by simp [init, h]
    exact ⟨he, applyOp_of_error (show exec s (.init a) = .error _ from he)⟩

/-- Witness for C7: a fresh store is initialized with admin 7, and a
second initialization with admin 9 fails and leaves the store as it was. -/
theorem c7_initialize_exactly_once_witness :
    init emptyStore 7 =
      .ok { emptyStore with admin := some 7, totalIssued := some (0 : Int) } ∧
    (init { emptyStore with admin := some 7, totalIssued := some (0 : Int) } 9 =
        .error .AlreadyInitialized ∧
      applyOp { emptyStore with admin := some 7, totalIssued := some (0 : Int) }
        (.init 9) =
        { emptyStore with admin := some 7, totalIssued := some (0 : Int) }) :=
  ⟨c7_initialize_exactly_once.1 emptyStore 7 rfl,
   c7_initialize_exactly_once.2
     { emptyStore with admin := some 7, totalIssued := some (0 : Int) } 9 7 rfl⟩

/-- C5 counterexample: with the beneficiary balance at the i128 maximum,
an authorized issuance of amount 1 does not succeed as the claim states:
it aborts with `Overflow` under the checked-abort arithmetic. -/
theorem c5_counterexample_overflow :
    (0 : Address) ∈ [(0 : Address)] ∧ (0 : Int) < 1 ∧
      issue_credits (setCredits emptyStore 1 i128Max) [0] 0 1 1 "Tuition" 0 =
        .error .Overflow :=
  ⟨by decide, by decide, rfl⟩

/-- C5 (amended): an authorized issuance of a positive amount whose
balance and counter updates stay within the i128 range succeeds, credits
the beneficiary by exactly the amount, raises the total-issued counter by
exactly the amount, stores the allocation record (overwriting any prior
one), returns that record, and a subsequent lookup returns it. -/
theorem c5_issue_credits_effects :
    ∀ (s : Store) (au : List Address) (i b : Address) (m : Int) (p : String)
      (e : Nat),
      i ∈ au → 0 < m → inI128 (balance s b + m) →
      inI128 (total_issued s + m) →
      ∃ s', issue_credits s au i b m p e =
          .ok (s', { beneficiary := b, issuer := i, amount := m, purpose := p,
                     expires_at := e }) ∧
        balance s' b = balance s b + m ∧
        total_issued s' = total_issued s + m ∧
        get_allocation s' b =
          some { beneficiary := b, issuer := i, amount := m, purpose := p,
                 expires_at := e } := by
  intro s au i b m p e hau hm h1 h2
  simp only [balance] at h1
  simp only [total_issued, getTotal] at h2
  have e1 : checkedAdd (getCredits s b) m = some (getCredits s b + m) :=
    checkedAdd_of_inI128 h1
  have e2 : checkedAdd (getTotal (setCredits s b (getCredits s b + m))) m =
      some (getTotal s + m) := checkedAdd_of_inI128 h2
  refine ⟨setAllocation
      { setCredits s b (getCredits s b + m) with
          totalIssued := some (getTotal s + m) } b
      { beneficiary := b, issuer := i, amount := m, purpose := p,
        expires_at := e }, ?_, ?_, rfl, ?_⟩
  · simp only [issue_credits, if_neg (not_not_intro hau),
      if_neg (not_le.mpr hm), e1, e2]
  · rw [balance_setAllocation, balance_setTotal, balance_setCredits]
    simp [balance]
  · simp [get_allocation, setAllocation]

/-- Witness for C5 (amended): issuing 5 credits from issuer 0 to
beneficiary 1 on the fresh store. -/
theorem c5_issue_credits_effects_witness :
    ∃ s', issue_credits emptyStore [0] 0 1 5 "Books" 42 =
        .ok (s', { beneficiary := 1, issuer := 0, amount := 5,
                   purpose := "Books", expires_at := 42 }) ∧
      balance s' 1 = balance emptyStore 1 + 5 ∧
      total_issued s' = total_issued emptyStore + 5 ∧
      get_allocation s' 1 =
        some { beneficiary := 1, issuer := 0, amount := 5, purpose := "Books",
               expires_at := 42 } :=
  c5_issue_credits_effects emptyStore [0] 0 1 5 "Books" 42 (by decide)
    (by decide) (by decide) (by decide)

/-- C8: an authorized burn of a positive amount not exceeding the
account's balance succeeds, lowers that balance by exactly the amount,
and leaves the total-issued counter unchanged. -/
theorem c8_burn_effects :
    ∀ (s : Store) (au : List Address) (a : Address) (m : Int),
      a ∈ au → 0 < m → m ≤ balance s a →
      burn s au a m = .ok (setCredits s a (balance s a - m)) ∧
      balance (setCredits s a (balance s a - m)) a = balance s a - m ∧
      total_issued (setCredits s a (balance s a - m)) = total_issued s := by
  intro s au a m hau hm hle
  simp only [balance] at hle ⊢
  refine ⟨?_, ?_, rfl⟩
  · simp only [burn, if_neg (not_not_intro hau), if_neg (not_le.mpr hm),
      if_neg (not_lt.mpr hle)]
  · simp [getCredits, setCredits]

/-- Witness for C8: burning 400 of 1000 credits held by account 3. -/
theorem c8_burn_effects_witness :
    burn (setCredits emptyStore 3 1000) [3] 3 400 =
      .ok (setCredits (setCredits emptyStore 3 1000) 3
        (balance (setCredits emptyStore 3 1000) 3 - 400)) ∧
    balance (setCredits (setCredits emptyStore 3 1000) 3
        (balance (setCredits emptyStore 3 1000) 3 - 400)) 3 =
      balance (setCredits emptyStore 3 1000) 3 - 400 ∧
    total_issued (setCredits (setCredits emptyStore 3 1000) 3
        (balance (setCredits emptyStore 3 1000) 3 - 400)) =
      total_issued (setCredits emptyStore 3 1000) :=
  c8_burn_effects (setCredits emptyStore 3 1000) [3] 3 400 (by decide)
    (by decide) (by decide)

/-- C9: under the checked-abort arithmetic mandated by the spec, an
addition on a balance or on the total-issued counter that would leave the
i128 range makes the whole operation fail with `Overflow` and commits no
state change: the beneficiary-balance and counter additions of
`issue_credits` and the recipient-balance addition of `transfer` (the
guarded subtractions of `transfer` and `burn` stay in range for i128
inputs). -/
theorem c9_overflow_checked_abort :
    (∀ (s : Store) (au : List Address) (i b : Address) (m : Int) (p : String)
       (e : Nat), i ∈ au → 0 < m → ¬ inI128 (balance s b + m) →
       exec s (.issue au i b m p e) = .error .Overflow ∧
         applyOp s (.issue au i b m p e) = s) ∧
    (∀ (s : Store) (au : List Address) (i b : Address) (m : Int) (p : String)
       (e : Nat), i ∈ au → 0 < m → inI128 (balance s b + m) →
       ¬ inI128 (total_issued s + m) →
       exec s (.issue au i b m p e) = .error .Overflow ∧
         applyOp s (.issue au i b m p e) = s) ∧
    (∀ (s : Store) (au : List Address) (f t : Address) (m : Int),
       f ∈ au → 0 < m → m ≤ balance s f → ¬ inI128 (balance s t + m) →
       exec s (.transfer au f t m) = .error .Overflow ∧
         applyOp s (.transfer au f t m) = s) := by
  refine ⟨?_, ?_, ?_⟩
  · intro s au i b m p e hau hm h1
    simp only [balance] at h1
    have he : exec s (.issue au i b m p e) = .error .Overflow := by
      simp only [exec, issue_credits, if_neg (not_not_intro hau),
        if_neg (not_le.mpr hm), checkedAdd_of_not_inI128 h1]
    exact ⟨he, applyOp_of_error he⟩
  · intro s au i b m p e hau hm h1 h2
    simp only [balance] at h1
    simp only [total_issued, getTotal] at h2
    have e1 : checkedAdd (getCredits s b) m = some (getCredits s b + m) :=
      checkedAdd_of_inI128 h1
    have e2 : checkedAdd (getTotal (setCredits s b (getCredits s b + m))) m =
        none := checkedAdd_of_not_inI128 h2
    have he : exec s (.issue au i b m p e) = .error .Overflow := by
      simp only [exec, issue_credits, if_neg (not_not_intro hau),
        if_neg (not_le.mpr hm), e1, e2]
    exact ⟨he, applyOp_of_error he⟩
  · intro s au f t m hau hm hle h1
    simp only [balance] at hle h1
    have he : exec s (.transfer au f t m) = .error .Overflow := by
      simp only [exec, transfer, if_neg (not_not_intro hau),
        if_neg (not_le.mpr hm), if_neg (not_lt.mpr hle),
        checkedAdd_of_not_inI128 h1]
    exact ⟨he, applyOp_of_error he⟩

/-- Witness for C9: the three overflow sites at concrete stores holding
values at the i128 maximum. -/
theorem c9_overflow_checked_abort_witness :
    (exec (setCredits emptyStore 1 i128Max) (.issue [0] 0 1 1 "Tuition" 0) =
        .error .Overflow ∧
      applyOp (setCredits emptyStore 1 i128Max) (.issue [0] 0 1 1 "Tuition" 0) =
        setCredits emptyStore 1 i128Max) ∧
    (exec { emptyStore with totalIssued := some i128Max }
        (.issue [0] 0 1 1 "Tuition" 0) = .error .Overflow ∧
      applyOp { emptyStore with totalIssued := some i128Max }
        (.issue [0] 0 1 1 "Tuition" 0) =
        { emptyStore with totalIssued := some i128Max }) ∧
    (exec (setCredits (setCredits emptyStore 0 5) 1 i128Max)
        (.transfer [0] 0 1 5) = .error .Overflow ∧
      applyOp (setCredits (setCredits emptyStore 0 5) 1 i128Max)
        (.transfer [0] 0 1 5) =
        setCredits (setCredits emptyStore 0 5) 1 i128Max) :=
  ⟨c9_overflow_checked_abort.1 (setCredits emptyStore 1 i128Max) [0] 0 1 1
      "Tuition" 0 (by decide) (by decide) (by decide),
   c9_overflow_checked_abort.2.1 { emptyStore with totalIssued := some i128Max }
      [0] 0 1 1 "Tuition" 0 (by decide) (by decide) (by decide) (by decide),
   c9_overflow_checked_abort.2.2 (setCredits (setCredits emptyStore 0 5) 1 i128Max)
      [0] 0 1 5 (by decide) (by decide) (by decide) (by decide)⟩

/-- C10: a successful transfer changes at most the balances of the two
named accounts, and a successful burn at most the balance of its account;
every allocation record, the admin value and the total-issued counter are
unchanged in both cases. -/
theorem c10_transfer_burn_frame :
    (∀ (s : Store) (au : List Address) (f t : Address) (m : Int) (s' : Store)
       (x b : Address), transfer s au f t m = .ok s' → x ≠ f → x ≠ t →
       balance s' x = balance s x ∧
       get_allocation s' b = get_allocation s b ∧
       s'.admin = s.admin ∧ total_issued s' = total_issued s) ∧
    (∀ (s : Store) (au : List Address) (a : Address) (m : Int) (s' : Store)
       (x b : Address), burn s au a m = .ok s' → x ≠ a →
       balance s' x = balance s x ∧
       get_allocation s' b = get_allocation s b ∧
       s'.admin = s.admin ∧ total_issued s' = total_issued s) := by
  constructor
  · intro s au f t m s' x b h hxf hxt
    obtain ⟨_, _, _, _, hs⟩ := transfer_ok h
    subst hs
    refine ⟨?_, rfl, rfl, rfl⟩
    rw [balance_setCredits, balance_setCredits, if_neg hxt, if_neg hxf]
  · intro s au a m s' x b h hxa
    obtain ⟨_, _, _, hs⟩ := burn_ok h
    subst hs
    refine ⟨?_, rfl, rfl, rfl⟩
    rw [balance_setCredits, if_neg hxa]

/-- Witness for C10: a successful transfer of 500 from account 0 to
account 1 and a successful burn of 400 on account 3 leave the balance of
account 5 and the allocation of account 9 untouched. -/
theorem c10_transfer_burn_frame_witness :
    (balance (setCredits (setCredits (setCredits emptyStore 0 1000) 0 500) 1 500) 5 =
        balance (setCredits emptyStore 0 1000) 5 ∧
      get_allocation (setCredits (setCredits (setCredits emptyStore 0 1000) 0 500) 1 500) 9 =
        get_allocation (setCredits emptyStore 0 1000) 9 ∧
      (setCredits (setCredits (setCredits emptyStore 0 1000) 0 500) 1 500).admin =
        (setCredits emptyStore 0 1000).admin ∧
      total_issued (setCredits (setCredits (setCredits emptyStore 0 1000) 0 500) 1 500) =
        total_issued (setCredits emptyStore 0 1000)) ∧
    (balance (setCredits (setCredits emptyStore 3 1000) 3 600) 5 =
        balance (setCredits emptyStore 3 1000) 5 ∧
      get_allocation (setCredits (setCredits emptyStore 3 1000) 3 600) 9 =
        get_allocation (setCredits emptyStore 3 1000) 9 ∧
      (setCredits (setCredits emptyStore 3 1000) 3 600).admin =
        (setCredits emptyStore 3 1000).admin ∧
      total_issued (setCredits (setCredits emptyStore 3 1000) 3 600) =
        total_issued (setCredits emptyStore 3 1000)) :=
  ⟨c10_transfer_burn_frame.1 (setCredits emptyStore 0 1000) [0] 0 1 500
      (setCredits (setCredits (setCredits emptyStore 0 1000) 0 500) 1 500) 5 9
      rfl (by decide) (by decide),
   c10_transfer_burn_frame.2 (setCredits emptyStore 3 1000) [3] 3 400
      (setCredits (setCredits emptyStore 3 1000) 3 600) 5 9 rfl (by decide)⟩

end EduPass
